import Mathlib

/-!
Verification of the backprop-mode stack of `src/xchainer/backprop_mode.h`.

The header declares the data model (`internal::BackpropMode`, the per-context
`BackpropModeStack`, the `BackpropModeScope` guard) and defines inline the
value-level queries (`IsBackpropRequired(const Array&)` and
`internal::IsBackpropRequiredAfterStop`).  The bodies of
`IsBackpropRequired(graph_id, context)`, `BackpropModeScope::BackpropModeScopeImpl`
and `BackpropModeScope::~BackpropModeScope` live in a translation unit that is
not part of the analyzed sources; those are modelled from the specification
(sections 4.1 and 4.2), as marked on each definition.
-/

namespace xchainer

/-- Modelled from the spec: graph identifiers are opaque, comparable, hashable
tokens (`xchainer/graph.h` is not among the analyzed sources); we embed them as
naturals. -/
abbrev GraphId := Nat

/-- Modelled from the spec: the well-known default graph identifier constant
(`xchainer/constant.h` is not among the analyzed sources). -/
def kDefaultGraphId : GraphId := 0

/-- Modelled from the spec: an execution context is an opaque identity owning
one Mode-Stack (`xchainer/context.h` is not among the analyzed sources); we
embed it as an identifier. -/
structure Context where
  id : Nat
deriving DecidableEq, Repr

/-- Modelled from the spec: the process-wide default context singleton returned
by `GetDefaultContext()`. -/
def GetDefaultContext : Context := ⟨0⟩

/-- One Mode-Stack entry, from `internal::BackpropMode`
(`backprop_mode.h` lines 19-37): the owning context, an optional graph
identifier (absent means the entry applies to every graph) and the backprop
flag (false for NoBackpropMode, true for ForceBackpropMode). -/
structure BackpropMode where
  context : Context
  graph_id : Option GraphId
  backprop : Bool
deriving DecidableEq, Repr

/-- The per-context Mode-Stack, from
`using BackpropModeStack = std::vector<internal::BackpropMode>`
(`backprop_mode.h` line 43).  Index 0 is the oldest entry; pushes append at
the tail, exactly like `std::vector::push_back`. -/
abbrev BackpropModeStack := List BackpropMode

/-- Whether a Mode-Stack entry applies to the queried graph: it does when its
graph identifier is absent (applies to all graphs) or equals the queried one. -/
def appliesTo (graph_id : GraphId) (m : BackpropMode) : Bool :=
  m.graph_id.isNone || m.graph_id == some graph_id

/-- Modelled from the spec: the body of
`bool IsBackpropRequired(const GraphId& graph_id, Context& context)` is not in
the analyzed sources (only its declaration, `backprop_mode.h` line 85).
Spec 4.1: scan the context's Mode-Stack from the most-recently-pushed entry
toward the oldest; the first entry that applies to the queried graph gives the
result; if no entry matches, the default result is true. -/
def IsBackpropRequiredInStack (graph_id : GraphId) (stack : BackpropModeStack) : Bool :=
  match List.find? (appliesTo graph_id) stack.reverse with
  | some m => m.backprop
  | none => true

/-- The global mutable state the header's functions touch: one Mode-Stack per
execution context, looked up by context identity. -/
structure GlobalState where
  modeStacks : Nat → BackpropModeStack

/-- The single-graph query at the level of the global state: resolve the
queried context's Mode-Stack and scan it. -/
def IsBackpropRequired (graph_id : GraphId) (context : Context) (state : GlobalState) : Bool :=
  IsBackpropRequiredInStack graph_id (state.modeStacks context.id)

/-- The entries a `BackpropModeScope<kModeFlag>` pushes for a given argument:
`nonstd::nullopt` (the no-argument constructor, `backprop_mode.h` line 49)
yields one all-graph entry; an explicit list (lines 52-57) yields one entry
per listed graph identifier, in list order, each carrying the guard's flag. -/
def scopeEntries (context : Context) (kModeFlag : Bool) (graph_ids : Option (List GraphId)) :
    List BackpropMode :=
  match graph_ids with
  | none => [⟨context, none, kModeFlag⟩]
  | some gs => List.map (fun g => ⟨context, some g, kModeFlag⟩) gs

/-- Modelled from the spec: the body of
`BackpropModeScope::BackpropModeScopeImpl` is not in the analyzed sources
(only its declaration, `backprop_mode.h` line 67).  Spec 4.2: construction
pushes the guard's entries onto the tail of the current context's stack. -/
def BackpropModeScopeImpl (context : Context) (kModeFlag : Bool)
    (graph_ids : Option (List GraphId)) (stack : BackpropModeStack) : BackpropModeStack :=
  stack ++ scopeEntries context kModeFlag graph_ids

/-- Modelled from the spec: the body of `BackpropModeScope::~BackpropModeScope`
is not in the analyzed sources (only its declaration, `backprop_mode.h`
line 64).  Spec 4.2: release removes exactly the `n_` entries the guard pushed
from the tail of the context's stack. -/
def scopeRelease (n : Nat) (stack : BackpropModeStack) : BackpropModeStack :=
  List.take (stack.length - n) stack

/-- Modelled from the spec: release including the outermost guard's defensive
consistency check (`backprop_mode.h` lines 64-71, `is_outermost_`).  Spec 4.2:
a guard records at construction whether the stack was at the canonical
top-level depth (empty); on release, after removing its entries, such a guard
asserts the stack is back at that depth.  `none` is the fatal assertion
failure. -/
def scopeReleaseChecked (n : Nat) (is_outermost : Bool) (stack : BackpropModeStack) :
    Option BackpropModeStack :=
  let s := scopeRelease n stack
  if is_outermost && !(s.length == 0) then none else some s

mutual

/-- A properly nested use of scope guards on one context: a guard with its
flag, its constructor argument, and the guards opened strictly inside it. -/
inductive GuardTree : Type where
  | node : Bool → Option (List GraphId) → GuardForest → GuardTree

/-- A sequence of properly nested guard uses, opened and closed one after the
other at the same nesting level. -/
inductive GuardForest : Type where
  | nil : GuardForest
  | cons : GuardTree → GuardForest → GuardForest

end

mutual

/-- Effect on the context's stack of one guard's full lifetime: push its
entries, run the guards nested inside, pop as many entries as were pushed. -/
def runTree (context : Context) : GuardTree → BackpropModeStack → BackpropModeStack
  | .node flag gids inner, s =>
      scopeRelease (scopeEntries context flag gids).length
        (runForest context inner (BackpropModeScopeImpl context flag gids s))

/-- Effect on the context's stack of a sequence of nested guard uses. -/
def runForest (context : Context) : GuardForest → BackpropModeStack → BackpropModeStack
  | .nil, s => s
  | .cons t ts, s => runForest context ts (runTree context t s)

end

mutual

/-- Like `runTree`, but performing the destructor's consistency check; `none`
propagates a fatal assertion failure. -/
def runTreeChecked (context : Context) : GuardTree → BackpropModeStack → Option BackpropModeStack
  | .node flag gids inner, s =>
      match runForestChecked context inner (BackpropModeScopeImpl context flag gids s) with
      | none => none
      | some s2 => scopeReleaseChecked (scopeEntries context flag gids).length (s.length == 0) s2

/-- Like `runForest`, but performing the destructor's consistency check. -/
def runForestChecked (context : Context) : GuardForest → BackpropModeStack → Option BackpropModeStack
  | .nil, s => some s
  | .cons t ts, s =>
      match runTreeChecked context t s with
      | none => none
      | some s2 => runForestChecked context ts s2

end

/-- A graph membership of a tensor value, from `ArrayNode` as used by the
header: the core only reads `array_node->graph_id()`. -/
structure ArrayNode where
  graph_id : GraphId
deriving DecidableEq, Repr

/-- A tensor value as the header sees it, from `Array::nodes()`: an ordered
collection of graph memberships. -/
structure Array where
  nodes : List ArrayNode
deriving DecidableEq, Repr

/-- The value-level query, inline in the header (`backprop_mode.h` lines
88-93): `std::any_of` over the array's nodes of the single-graph query at each
node's graph identifier, with the context argument defaulted to
`GetDefaultContext()`. -/
def IsBackpropRequiredArray (array : Array) (state : GlobalState) : Bool :=
  List.any array.nodes (fun array_node =>
    IsBackpropRequired array_node.graph_id GetDefaultContext state)

/-- The stop-set query, inline in the header (`backprop_mode.h` lines
98-107): `std::any_of` over the array's nodes; a node whose graph identifier
is found in `stop_graph_ids` contributes false, any other node contributes the
single-graph query at its graph identifier, with the context argument
defaulted to `GetDefaultContext()`. -/
def IsBackpropRequiredAfterStop (array : Array) (stop_graph_ids : List GraphId)
    (state : GlobalState) : Bool :=
  List.any array.nodes (fun array_node =>
    if (List.find? (fun g => g == array_node.graph_id) stop_graph_ids).isNone then
      IsBackpropRequired array_node.graph_id GetDefaultContext state
    else
      false)

/-- The single-graph query as a state transition, recording what it does to
the global state.  Modelled from the spec (4.1): the algorithm only scans the
context's stack; it performs no mutation, so the output state is the input
state. -/
def IsBackpropRequiredRun (graph_id : GraphId) (context : Context) (state : GlobalState) :
    Bool × GlobalState :=
  (IsBackpropRequired graph_id context state, state)

/-! Helper lemmas shared by the claim theorems. -/

/-- Scanning after a push at the tail: the pushed entry is consulted first. -/
theorem query_concat (g : GraphId) (s : BackpropModeStack) (e : BackpropMode) :
    IsBackpropRequiredInStack g (s ++ [e]) =
      if appliesTo g e then e.backprop else IsBackpropRequiredInStack g s := by
  unfold IsBackpropRequiredInStack
  rw [List.reverse_append]
  by_cases h : appliesTo g e = true
  · simp [List.find?_cons_of_pos _ h, h]
  · simp [List.find?_cons_of_neg _ h, h]

/-- The query on the empty stack gives the default result, true. -/
theorem query_nil (g : GraphId) : IsBackpropRequiredInStack g [] = true := rfl

/-- Removing as many entries as a block appended at the tail recovers the
stack below the block. -/
theorem scopeRelease_append (s t : BackpropModeStack) :
    scopeRelease t.length (s ++ t) = s := by
  unfold scopeRelease
  rw [List.length_append, Nat.add_sub_cancel, List.take_left]

mutual

/-- One guard lifetime with balanced inner guards restores the stack. -/
theorem runTree_eq (context : Context) (t : GuardTree) (s : BackpropModeStack) :
    runTree context t s = s := by
  match t with
  | .node flag gids inner =>
    rw [runTree, runForest_eq, BackpropModeScopeImpl, scopeRelease_append]

/-- A sequence of balanced guard lifetimes restores the stack. -/
theorem runForest_eq (context : Context) (f : GuardForest) (s : BackpropModeStack) :
    runForest context f s = s := by
  match f with
  | .nil => rw [runForest]
  | .cons t ts => rw [runForest, runTree_eq, runForest_eq]

end

mutual

/-- One guard lifetime with balanced inner guards passes the destructor's
consistency check and restores the stack. -/
theorem runTreeChecked_eq (context : Context) (t : GuardTree) (s : BackpropModeStack) :
    runTreeChecked context t s = some s := by
  match t with
  | .node flag gids inner =>
    rw [runTreeChecked, runForestChecked_eq]
    show scopeReleaseChecked _ _ _ = _
    unfold scopeReleaseChecked BackpropModeScopeImpl
    rw [scopeRelease_append]
    cases h : s.length == 0 <;> simp [h]

/-- A sequence of balanced guard lifetimes passes every destructor
consistency check and restores the stack. -/
theorem runForestChecked_eq (context : Context) (f : GuardForest) (s : BackpropModeStack) :
    runForestChecked context f s = some s := by
  match f with
  | .nil => rw [runForestChecked]
  | .cons t ts =>
    rw [runForestChecked, runTreeChecked_eq]
    exact runForestChecked_eq context ts s

end

/-- Pointwise-equal predicates give the same `List.any`. -/
theorem anyCongr {α : Type} (l : List α) (p q : α → Bool) (h : ∀ x ∈ l, p x = q x) :
    l.any p = l.any q := by
  induction l with
  | nil => rfl
  | cons a l ih =>
    rw [List.any_cons, List.any_cons, h a (List.mem_cons_self a l),
      ih (fun x hx => h x (List.mem_cons_of_mem a hx))]

/-! Claim theorems. -/

/-- C1: for every context and graph identifier g, the single-graph query
returns the backprop flag of the most-recently-pushed Mode-Stack entry whose
graph_id is either absent or equal to g; if no entry of the stack matches (in
particular when the stack is empty), it returns true. -/
theorem claimC1_query_resolves_most_recent_match (state : GlobalState) (context : Context)
    (g : GraphId) :
    (∀ pre e post, state.modeStacks context.id = pre ++ e :: post →
        appliesTo g e = true → (∀ e2 ∈ post, appliesTo g e2 = false) →
        IsBackpropRequired g context state = e.backprop) ∧
    ((∀ e ∈ state.modeStacks context.id, appliesTo g e = false) →
        IsBackpropRequired g context state = true) := by
  constructor
  · intro pre e post hdec hmatch hpost
    unfold IsBackpropRequired IsBackpropRequiredInStack
    rw [hdec]
    have hnone : List.find? (appliesTo g) post.reverse = none := by
      rw [List.find?_eq_none]
      intro x hx
      rw [List.mem_reverse] at hx
      simp [hpost x hx]
    simp [List.reverse_append, List.find?_append, hnone, List.find?_cons_of_pos _ hmatch]
  · intro hall
    unfold IsBackpropRequired IsBackpropRequiredInStack
    have hnone : List.find? (appliesTo g) (state.modeStacks context.id).reverse = none := by
      rw [List.find?_eq_none]
      intro x hx
      rw [List.mem_reverse] at hx
      simp [hall x hx]
    rw [hnone]

/-- Witness for C1 at a one-entry stack suppressing graph 1: the query for
graph 1 resolves to that entry's flag, the query for graph 2 falls through to
the default. -/
theorem claimC1_witness :
    IsBackpropRequired 1 ⟨0⟩ ⟨fun _ => [⟨⟨0⟩, some 1, false⟩]⟩ = false ∧
    IsBackpropRequired 2 ⟨0⟩ ⟨fun _ => [⟨⟨0⟩, some 1, false⟩]⟩ = true := by
  constructor
  · exact (claimC1_query_resolves_most_recent_match ⟨fun _ => [⟨⟨0⟩, some 1, false⟩]⟩ ⟨0⟩ 1).1
      [] ⟨⟨0⟩, some 1, false⟩ [] rfl (by decide) (by intro e2 h2; cases h2)
  · exact (claimC1_query_resolves_most_recent_match ⟨fun _ => [⟨⟨0⟩, some 1, false⟩]⟩ ⟨0⟩ 2).2
      (by decide)

/-- C2: from an empty stack, a suppress-all guard and inside it a force guard
for graph A yield query(A) true and query(B) false for any B distinct from A;
after the inner guard releases query(A) is false, and after the outer guard
releases both queries are true again. -/
theorem claimC2_nesting_precedence (A B : GraphId) (c : Context) (hBA : B ≠ A) :
    IsBackpropRequiredInStack A
      (BackpropModeScopeImpl c true (some [A]) (BackpropModeScopeImpl c false none [])) = true ∧
    IsBackpropRequiredInStack B
      (BackpropModeScopeImpl c true (some [A]) (BackpropModeScopeImpl c false none [])) = false ∧
    scopeRelease (scopeEntries c true (some [A])).length
      (BackpropModeScopeImpl c true (some [A]) (BackpropModeScopeImpl c false none [])) =
      BackpropModeScopeImpl c false none [] ∧
    IsBackpropRequiredInStack A (BackpropModeScopeImpl c false none []) = false ∧
    scopeRelease (scopeEntries c false none).length (BackpropModeScopeImpl c false none []) =
      [] ∧
    IsBackpropRequiredInStack A ([] : BackpropModeStack) = true ∧
    IsBackpropRequiredInStack B ([] : BackpropModeStack) = true := by
  have hAA : appliesTo A ⟨c, some A, true⟩ = true := by simp [appliesTo]
  have hBAfalse : appliesTo B ⟨c, some A, true⟩ = false := by
    simp [appliesTo]
    exact fun h => hBA h.symm
  have hNallA : appliesTo A ⟨c, none, false⟩ = true := rfl
  have hNallB : appliesTo B ⟨c, none, false⟩ = true := rfl
  refine ⟨?_, ?_, ?_, ?_, ?_, rfl, rfl⟩
  · show IsBackpropRequiredInStack A (([] ++ [⟨c, none, false⟩]) ++ [⟨c, some A, true⟩]) = true
    rw [query_concat, hAA]
    rfl
  · show IsBackpropRequiredInStack B (([] ++ [⟨c, none, false⟩]) ++ [⟨c, some A, true⟩]) = false
    rw [query_concat, hBAfalse]
    show IsBackpropRequiredInStack B ([] ++ [⟨c, none, false⟩]) = false
    rw [query_concat, hNallB]
    rfl
  · exact (scopeRelease_append _ _)
  · show IsBackpropRequiredInStack A ([] ++ [⟨c, none, false⟩]) = false
    rw [query_concat, hNallA]
    rfl
  · exact (scopeRelease_append _ _)

/-- Witness for C2 at graphs A = 0, B = 1 on context 0. -/
theorem claimC2_witness :
    IsBackpropRequiredInStack 0
      (BackpropModeScopeImpl ⟨0⟩ true (some [0]) (BackpropModeScopeImpl ⟨0⟩ false none [])) =
      true :=
  (claimC2_nesting_precedence 0 1 ⟨0⟩ (by decide)).1

/-- C3: each guard's release removes exactly the entries it pushed from the
tail of the context's stack, and any properly nested sequence of guard
lifetimes leaves the stack depth equal to its depth before the first guard
was opened. -/
theorem claimC3_balance :
    (∀ (c : Context) (flag : Bool) (gids : Option (List GraphId)) (s : BackpropModeStack),
      scopeRelease (scopeEntries c flag gids).length (BackpropModeScopeImpl c flag gids s) = s) ∧
    (∀ (c : Context) (f : GuardForest) (s : BackpropModeStack),
      (runForest c f s).length = s.length) := by
  constructor
  · intro c flag gids s
    rw [BackpropModeScopeImpl, scopeRelease_append]
  · intro c f s
    rw [runForest_eq]

/-- C6: the no-argument guard pushes exactly one all-graph entry carrying the
guard's flag; the explicit-list guard pushes one entry per listed graph
identifier, each carrying that identifier and the guard's flag, in list
order. -/
theorem claimC6_construction_pushes (c : Context) (flag : Bool) (s : BackpropModeStack) :
    BackpropModeScopeImpl c flag none s = s ++ [⟨c, none, flag⟩] ∧
    ∀ gs : List GraphId,
      BackpropModeScopeImpl c flag (some gs) s =
        s ++ List.map (fun g => ⟨c, some g, flag⟩) gs :=
  ⟨rfl, fun _ => rfl⟩

/-- C7: a guard opened with an empty explicit graph list pushes zero entries,
every query returns the same result as before it was opened, and its release
restores the previous stack. -/
theorem claimC7_empty_list_guard (c : Context) (flag : Bool) (s : BackpropModeStack)
    (g : GraphId) :
    (scopeEntries c flag (some [])).length = 0 ∧
    BackpropModeScopeImpl c flag (some []) s = s ∧
    IsBackpropRequiredInStack g (BackpropModeScopeImpl c flag (some []) s) =
      IsBackpropRequiredInStack g s ∧
    scopeRelease (scopeEntries c flag (some [])).length
      (BackpropModeScopeImpl c flag (some []) s) = s := by
  refine ⟨rfl, ?_, ?_, ?_⟩
  · simp [BackpropModeScopeImpl, scopeEntries]
  · simp [BackpropModeScopeImpl, scopeEntries]
  · rw [BackpropModeScopeImpl, scopeRelease_append]

/-- C8: along any properly nested (LIFO-destroyed) sequence of guard
lifetimes on one context, the outermost guard's release-time consistency
check never fails: the checked run returns the unchecked run's stack rather
than the fatal-assertion marker. -/
theorem claimC8_outermost_check_never_fails (c : Context) (f : GuardForest)
    (s : BackpropModeStack) :
    runForestChecked c f s = some (runForest c f s) := by
  rw [runForestChecked_eq, runForest_eq]

/-- C4: the value-level query is the logical OR of the single-graph query
over every graph membership of the value, and is false for a value with no
memberships. -/
theorem claimC4_value_aggregation (array : Array) (state : GlobalState) :
    (IsBackpropRequiredArray array state = true ↔
      ∃ array_node ∈ array.nodes,
        IsBackpropRequired array_node.graph_id GetDefaultContext state = true) ∧
    (array.nodes = [] → IsBackpropRequiredArray array state = false) := by
  constructor
  · rw [IsBackpropRequiredArray, List.any_eq_true]
  · intro h
    rw [IsBackpropRequiredArray, h]
    rfl

/-- Witness for C4: a value with no graph memberships reports false. -/
theorem claimC4_witness : IsBackpropRequiredArray ⟨[]⟩ ⟨fun _ => []⟩ = false :=
  (claimC4_value_aggregation ⟨[]⟩ ⟨fun _ => []⟩).2 rfl

/-- C5: the stop-set query is the logical OR of the single-graph query over
the memberships whose graph identifier is not in the stop set; it is false
when the value has no memberships or all of them are stopped; and the
backprop state of the stopped graphs does not influence the result. -/
theorem claimC5_stop_set (array : Array) (stop_graph_ids : List GraphId)
    (state : GlobalState) :
    (IsBackpropRequiredAfterStop array stop_graph_ids state = true ↔
      ∃ array_node ∈ array.nodes, array_node.graph_id ∉ stop_graph_ids ∧
        IsBackpropRequired array_node.graph_id GetDefaultContext state = true) ∧
    ((∀ array_node ∈ array.nodes, array_node.graph_id ∈ stop_graph_ids) →
      IsBackpropRequiredAfterStop array stop_graph_ids state = false) ∧
    (∀ state2 : GlobalState,
      (∀ g : GraphId, g ∉ stop_graph_ids →
        IsBackpropRequired g GetDefaultContext state =
          IsBackpropRequired g GetDefaultContext state2) →
      IsBackpropRequiredAfterStop array stop_graph_ids state =
        IsBackpropRequiredAfterStop array stop_graph_ids state2) := by
  have hfind : ∀ x : GraphId,
      (List.find? (fun g => g == x) stop_graph_ids).isNone = true ↔ x ∉ stop_graph_ids := by
    intro x
    rw [Option.isNone_iff_eq_none, List.find?_eq_none]
    constructor
    · intro h hx
      exact absurd (by simp) (h x hx)
    · intro h y hy
      simp only [beq_iff_eq]
      intro he
      exact h (he ▸ hy)
  refine ⟨?_, ?_, ?_⟩
  · rw [IsBackpropRequiredAfterStop, List.any_eq_true]
    constructor
    · rintro ⟨n, hn, hv⟩
      by_cases hin : (List.find? (fun g => g == n.graph_id) stop_graph_ids).isNone = true
      · rw [if_pos hin] at hv
        exact ⟨n, hn, (hfind n.graph_id).mp hin, hv⟩
      · rw [if_neg hin] at hv
        cases hv
    · rintro ⟨n, hn, hnot, hv⟩
      refine ⟨n, hn, ?_⟩
      rw [if_pos ((hfind n.graph_id).mpr hnot), hv]
  · intro hall
    rw [IsBackpropRequiredAfterStop]
    rw [List.any_eq_false]
    intro n hn
    have : ¬ (List.find? (fun g => g == n.graph_id) stop_graph_ids).isNone = true := by
      rw [hfind n.graph_id]
      intro hc
      exact hc (hall n hn)
    rw [if_neg this]
    simp
  · intro state2 hagree
    rw [IsBackpropRequiredAfterStop, IsBackpropRequiredAfterStop]
    apply anyCongr
    intro n hn
    by_cases hin : (List.find? (fun g => g == n.graph_id) stop_graph_ids).isNone = true
    · rw [if_pos hin, if_pos hin]
      exact hagree n.graph_id ((hfind n.graph_id).mp hin)
    · rw [if_neg hin, if_neg hin]

/-- Witness for C5: a value whose only membership is in the stop set reports
false, regardless of the state. -/
theorem claimC5_witness : IsBackpropRequiredAfterStop ⟨[⟨1⟩]⟩ [1] ⟨fun _ => []⟩ = false :=
  (claimC5_stop_set ⟨[⟨1⟩]⟩ [1] ⟨fun _ => []⟩).2.1 (by decide)

/-- C9: the single-graph query mutates nothing (its output state is its input
state), and its boolean result is the same whenever the queried context's
stack contents are the same. -/
theorem claimC9_query_read_only (g : GraphId) (c : Context) (state state2 : GlobalState) :
    (IsBackpropRequiredRun g c state).2 = state ∧
    (state.modeStacks c.id = state2.modeStacks c.id →
      (IsBackpropRequiredRun g c state).1 = (IsBackpropRequiredRun g c state2).1) := by
  refine ⟨rfl, ?_⟩
  intro h
  show IsBackpropRequired g c state = IsBackpropRequired g c state2
  rw [IsBackpropRequired, IsBackpropRequired, h]

/-- Witness for C9: two states with the same stack for context 0 (and
different stacks elsewhere) give the same query result, and the run leaves
the state unchanged. -/
theorem claimC9_witness :
    (IsBackpropRequiredRun 0 ⟨0⟩ ⟨fun _ => []⟩).2 = ⟨fun _ => []⟩ ∧
    (IsBackpropRequiredRun 0 ⟨0⟩ ⟨fun _ => []⟩).1 =
      (IsBackpropRequiredRun 0 ⟨0⟩ ⟨fun i => List.replicate i ⟨⟨0⟩, none, false⟩⟩).1 :=
  ⟨(claimC9_query_read_only 0 ⟨0⟩ ⟨fun _ => []⟩ ⟨fun _ => []⟩).1,
    (claimC9_query_read_only 0 ⟨0⟩ ⟨fun _ => []⟩
      ⟨fun i => List.replicate i ⟨⟨0⟩, none, false⟩⟩).2 rfl⟩

/-- C10: both value-level queries evaluate every membership against the
Mode-Stack of the process-wide default context: each equals a scan of that
one stack, and two global states agreeing on the default context's stack give
identical results no matter what the other contexts' stacks hold. -/
theorem claimC10_value_queries_use_default_context (array : Array)
    (stop_graph_ids : List GraphId) (state state2 : GlobalState) :
    (IsBackpropRequiredArray array state =
      List.any array.nodes (fun array_node =>
        IsBackpropRequiredInStack array_node.graph_id
          (state.modeStacks GetDefaultContext.id))) ∧
    (state.modeStacks GetDefaultContext.id = state2.modeStacks GetDefaultContext.id →
      IsBackpropRequiredArray array state = IsBackpropRequiredArray array state2 ∧
      IsBackpropRequiredAfterStop array stop_graph_ids state =
        IsBackpropRequiredAfterStop array stop_graph_ids state2) := by
  refine ⟨rfl, ?_⟩
  intro h
  constructor
  · rw [IsBackpropRequiredArray, IsBackpropRequiredArray]
    apply anyCongr
    intro n hn
    rw [IsBackpropRequired, IsBackpropRequired, h]
  · rw [IsBackpropRequiredAfterStop, IsBackpropRequiredAfterStop]
    apply anyCongr
    intro n hn
    rw [IsBackpropRequired, IsBackpropRequired, h]

/-- Witness for C10: changing every non-default context's stack does not
change the value-level query. -/
theorem claimC10_witness :
    IsBackpropRequiredArray ⟨[⟨0⟩]⟩ ⟨fun _ => []⟩ =
      IsBackpropRequiredArray ⟨[⟨0⟩]⟩ ⟨fun i => List.replicate i ⟨⟨0⟩, none, false⟩⟩ :=
  ((claimC10_value_queries_use_default_context ⟨[⟨0⟩]⟩ [] ⟨fun _ => []⟩
    ⟨fun i => List.replicate i ⟨⟨0⟩, none, false⟩⟩).2 rfl).1

end xchainer
